import Mathlib

/-!
Verification development for the provider configuration / client-factory
component of the `terraform-provider-huaweicloud` repository
(`huaweicloud/config.go`, `huaweicloud/provider.go`).

The Go code is shallowly embedded: the mutable `Config` struct becomes a pure
record threaded through the functions; network calls (identity authentication,
the identity project-listing query, the S3 session build) are abstracted as
oracle functions supplied as parameters; Go's `map[string]string` becomes an
association list with Go-map update semantics.  Two ghost fields (`attempted`,
`queryLog`) instrument the state so that "which auth strategy was attempted"
and "which identity queries were issued" are observable in theorems; they
correspond to no Go field and no Go code reads them.
-/

namespace HuaweiCloud

/-- Mirror of `golangsdk.AKSKAuthOptions` (the fields this repository sets). -/
structure AKSKAuthOptions where
  identityEndpoint : String := ""
  accessKey : String := ""
  secretKey : String := ""
  domainID : String := ""
  domain : String := ""
  bssDomainID : String := ""
  bssDomain : String := ""
  projectName : String := ""
  projectId : String := ""
  agencyName : String := ""
  agencyDomainName : String := ""
  delegatedProject : String := ""
  region : String := ""
  deriving Repr, DecidableEq

/-- Mirror of `golangsdk.AuthOptions` (the fields this repository sets);
used both by the token strategy and by the password strategy. -/
structure AuthOptions where
  identityEndpoint : String := ""
  tokenID : String := ""
  username : String := ""
  userID : String := ""
  password : String := ""
  domainID : String := ""
  domainName : String := ""
  tenantID : String := ""
  tenantName : String := ""
  agencyName : String := ""
  agencyDomainName : String := ""
  delegatedProject : String := ""
  deriving Repr, DecidableEq

/-- Mirror of the Go interface `golangsdk.AuthOptionsProvider`: either a
plain `AuthOptions` value (token / password auth) or an `AKSKAuthOptions`
value (key-pair auth). -/
inductive AuthOptionsProvider where
  | opts (o : AuthOptions)
  | aksk (o : AKSKAuthOptions)
  deriving Repr, DecidableEq

/-- Mirror of `golangsdk.ProviderClient` (the fields this repository reads
or writes: `ProjectID`, `DomainID`, `AKSKAuthOptions`).  In Go the client
also carries HTTP transport state, which no code under verification reads. -/
structure ProviderClient where
  projectID : String := ""
  domainID : String := ""
  userID : String := ""
  akskAuthOptions : AKSKAuthOptions := {}
  deriving Repr, DecidableEq

/-- Mirror of `golangsdk.ServiceClient`: a provider client plus the rendered
endpoint / resource-base strings. -/
structure ServiceClient where
  providerClient : ProviderClient := {}
  endpoint : String := ""
  resourceBase : String := ""
  deriving Repr, DecidableEq

/-- Mirror of the repository's `ServiceCatalog` entry type (fields consumed by
`newServiceClientByName`: `Name`, `Version`, `Scope`, `Admin`,
`WithOutProjectID`, `ResourceBase`).  A name absent from the Go map
`allServiceCatalog` denotes the zero value of this struct. -/
structure ServiceCatalog where
  name : String := ""
  version : String := ""
  scope : String := ""
  admin : Bool := false
  withOutProjectID : Bool := false
  resourceBase : String := ""
  deriving Repr, DecidableEq

/-- One project returned by the identity service's project-listing API
(`projects.Project`: the `Name` and `ID` fields the code consumes). -/
structure Project where
  name : String := ""
  id : String := ""
  deriving Repr, DecidableEq

/-- Result of the project-listing pipeline in `loadUserProjects`:
`listErr` models a failure of `projects.List(...).AllPages()` (transport/API
error), `extractErr` a failure of `projects.ExtractProjects`, `ok` a
successful listing. -/
inductive ProjectsResult where
  | listErr (e : String)
  | extractErr (e : String)
  | ok (all : List Project)
  deriving Repr, DecidableEq

/-- Oracle standing for the identity service's project-listing endpoint,
as a function of the two `projects.ListOpts` filters the code sends:
the domain ID and the region name. -/
def IdentityBackend : Type := String → String → ProjectsResult

/-- Oracle standing for `genClient` (SDK client construction, TLS setup and
`huaweisdk.Authenticate` against the identity endpoint), as a function of the
auth options passed to it. -/
def AuthBackend : Type := AuthOptionsProvider → Except String ProviderClient

/-- Oracle standing for the body of `newS3Session` when credentials are
present (AWS session construction); `none` means success. -/
def S3Backend : Type := Option String

/-- Ghost tag naming which `buildClientBy…` strategy function was entered. -/
inductive AuthStrategy where
  | token
  | aksk
  | password
  deriving Repr, DecidableEq

/-- Mirror of the `Config` struct of `huaweicloud/config.go` (the fields the
verified component reads or writes), with the Go pointer fields
`HwClient`/`DomainClient` as `Option` and the Go map `RegionProjectIDMap` as
an association list.  `attempted` and `queryLog` are ghost instrumentation
(see module docstring); `RPLock` needs no counterpart because the embedding
executes the lock-guarded region atomically. -/
structure Config where
  accessKey : String := ""
  secretKey : String := ""
  domainID : String := ""
  domainName : String := ""
  identityEndpoint : String := ""
  password : String := ""
  region : String := ""
  tenantID : String := ""
  tenantName : String := ""
  token : String := ""
  username : String := ""
  userID : String := ""
  agencyName : String := ""
  agencyDomainName : String := ""
  delegatedProject : String := ""
  cloud : String := ""
  maxRetries : Int := 0
  regionClient : Bool := false
  hwClient : Option ProviderClient := none
  domainClient : Option ProviderClient := none
  regionProjectIDMap : List (String × String) := []
  attempted : List AuthStrategy := []
  queryLog : List (String × String) := []
  deriving Repr, DecidableEq

/-- Go-map assignment `m[k] = v`: update the binding in place when the key is
present, append it otherwise. -/
def mapPut : List (String × String) → String → String → List (String × String)
  | [], k, v => [(k, v)]
  | (k', v') :: rest, k, v =>
      if k' = k then (k, v) :: rest else (k', v') :: mapPut rest k v

theorem lookup_mapPut_self (m : List (String × String)) (k v : String) :
    List.lookup k (mapPut m k v) = some v := by
  induction m with
  | nil => simp [mapPut, List.lookup]
  | cons hd tl ih =>
    obtain ⟨k', v'⟩ := hd
    by_cases h : k' = k
    · simp [mapPut, h, List.lookup]
    · simp only [mapPut, if_neg h, List.lookup]
      have hbeq : (k == k') = false := by
        simp [beq_iff_eq]
        exact fun hk => h hk.symm
      simp [hbeq, ih]

theorem lookup_mapPut_ne (m : List (String × String)) (k v k' : String)
    (h : k' ≠ k) : List.lookup k' (mapPut m k v) = List.lookup k' m := by
  have hbeq : (k' == k) = false := by simp [beq_iff_eq, h]
  induction m with
  | nil => simp [mapPut, List.lookup, hbeq]
  | cons hd tl ih =>
    obtain ⟨k0, v0⟩ := hd
    by_cases h0 : k0 = k
    · subst h0
      simp [mapPut, List.lookup, hbeq]
    · simp [mapPut, if_neg h0, List.lookup, ih]

/-- The `for _, item := range all` store loop of `loadUserProjects`. -/
def storeProjects (m : List (String × String)) (all : List Project) :
    List (String × String) :=
  all.foldl (fun acc item => mapPut acc item.name item.id) m

theorem lookup_storeProjects_ne (all : List Project) (m : List (String × String))
    (k : String) (h : ∀ p ∈ all, p.name ≠ k) :
    List.lookup k (storeProjects m all) = List.lookup k m := by
  induction all generalizing m with
  | nil => rfl
  | cons p rest ih =>
    have hp : p.name ≠ k := h p (by simp)
    have hrest : ∀ q ∈ rest, q.name ≠ k := fun q hq => h q (by simp [hq])
    calc List.lookup k (storeProjects (mapPut m p.name p.id) rest)
        = List.lookup k (mapPut m p.name p.id) := ih (mapPut m p.name p.id) hrest
      _ = List.lookup k m := lookup_mapPut_ne m p.name p.id k (fun he => hp he.symm)

theorem isSome_lookup_storeProjects (all : List Project) (m : List (String × String))
    (k : String) (h : (List.lookup k m).isSome = true) :
    (List.lookup k (storeProjects m all)).isSome = true := by
  induction all generalizing m with
  | nil => exact h
  | cons p rest ih =>
    refine ih (mapPut m p.name p.id) ?_
    by_cases hk : p.name = k
    · subst hk
      simp [lookup_mapPut_self]
    · rw [lookup_mapPut_ne m p.name p.id k (fun he => hk he.symm)]
      exact h

theorem lookup_storeProjects_mem (all : List Project) (m : List (String × String))
    (k : String) (hne : all ≠ []) (h : ∀ p ∈ all, p.name = k) :
    (List.lookup k (storeProjects m all)).isSome = true := by
  cases all with
  | nil => exact absurd rfl hne
  | cons p rest =>
    have hp : p.name = k := h p (by simp)
    refine isSome_lookup_storeProjects rest (mapPut m p.name p.id) k ?_
    rw [hp]
    simp [lookup_mapPut_self]

/-- Embedding of `Config.loadUserProjects`: issue the project-listing query
filtered by the client's domain ID and the region name (recorded in the ghost
`queryLog`), then either propagate a listing/extraction error, reject an empty
result with the wrong-name error, or store every returned `(Name, ID)` pair
into `RegionProjectIDMap`. -/
def loadUserProjects (be : IdentityBackend) (c : Config) (client : ProviderClient)
    (region : String) : Config × Option String :=
  let c1 := { c with queryLog := c.queryLog ++ [(client.domainID, region)] }
  match be client.domainID region with
  | .listErr e => (c1, some ("List projects failed, err=" ++ e))
  | .extractErr e => (c1, some ("Extract projects failed, err=" ++ e))
  | .ok all =>
    if all.isEmpty then
      (c1, some ("Wrong name or no access to the region: " ++ region))
    else
      ({ c1 with
          regionProjectIDMap := storeProjects c1.regionProjectIDMap all }, none)

/-- Embedding of `Config.newServiceClientByName`: reject an empty catalog
name/version; reject a non-default region unless both access key and secret
key are configured; resolve the project ID through the cache (querying and
storing on a miss); then clone the base client with the project-ID/region
overrides and render the endpoint and resource base from the catalog entry. -/
def newServiceClientByName (be : IdentityBackend) (c : Config)
    (client : ProviderClient) (catalog : ServiceCatalog) (region : String) :
    Config × Except String ServiceClient :=
  if catalog.name = "" ∨ catalog.version = "" then
    (c, .error "must specify the service name and api version")
  else if region ≠ c.region ∧ (c.accessKey = "" ∨ c.secretKey = "") then
    (c, .error "Resource-level region must be the same as Provider-level region when using non AK/SK authentication if Resource-level region set")
  else
    -- RPLock.Lock() … defer Unlock(): the block below runs atomically.
    let step :=
      if (List.lookup region c.regionProjectIDMap).isSome then (c, none)
      else loadUserProjects be c client region
    match step with
    | (c1, some e) => (c1, .error e)
    | (c1, none) =>
      let projectID := (List.lookup region c1.regionProjectIDMap).getD ""
      let clone : ProviderClient :=
        { client with
            projectID := projectID,
            akskAuthOptions :=
              { client.akskAuthOptions with
                  projectId := projectID, region := region } }
      let endpoint :=
        if catalog.scope = "global" ∧ ¬c1.regionClient then
          "https://" ++ catalog.name ++ "." ++ c1.cloud ++ "/"
        else
          "https://" ++ catalog.name ++ "." ++ region ++ "." ++ c1.cloud ++ "/"
      let rb0 := endpoint ++ catalog.version ++ "/"
      let rb1 := if !catalog.withOutProjectID then rb0 ++ projectID ++ "/" else rb0
      let rb2 :=
        if catalog.resourceBase ≠ "" then rb1 ++ catalog.resourceBase ++ "/" else rb1
      (c1, .ok { providerClient := clone, endpoint := endpoint, resourceBase := rb2 })

/-- Embedding of `Config.NewServiceClient`: look the logical service name up in
the catalog table (a missing key yields the zero-valued entry, as for a Go
map), pick the domain-scoped base client for admin entries and the
project-scoped one otherwise, and delegate to `newServiceClientByName`.
A `nil` Go base-client pointer is embedded as `Option`; the dereference is
`getD {}` because every path the claims exercise either errors before touching
the client or holds a present client. -/
def NewServiceClient (be : IdentityBackend)
    (catalogTable : List (String × ServiceCatalog)) (c : Config)
    (srv region : String) : Config × Except String ServiceClient :=
  let entry := (List.lookup srv catalogTable).getD {}
  let client := if entry.admin then c.domainClient else c.hwClient
  newServiceClientByName be c (client.getD {}) entry region

instance {e a : Type} [DecidableEq e] [DecidableEq a] : DecidableEq (Except e a)
  | .error x, .error y =>
      if h : x = y then isTrue (by rw [h])
      else isFalse (fun hc => h (Except.error.inj hc))
  | .error _, .ok _ => isFalse (fun hc => Except.noConfusion hc)
  | .ok _, .error _ => isFalse (fun hc => Except.noConfusion hc)
  | .ok x, .ok y =>
      if h : x = y then isTrue (by rw [h])
      else isFalse (fun hc => h (Except.ok.inj hc))

/-- Helper: whether an `Except` result is a success. -/
def isOk : Except String ServiceClient → Bool
  | .ok _ => true
  | .error _ => false

/-- Embedding of `genClients`: build the project-scoped client (fatal on
error, stored into `HwClient` on success), then build the domain-scoped
client, storing it into `DomainClient` only on success — and return the
domain-scoped call's error value either way (the final `return err`). -/
def genClients (be : AuthBackend) (c : Config) (pao dao : AuthOptionsProvider) :
    Config × Option String :=
  match be pao with
  | .error e => (c, some e)
  | .ok client =>
    let c1 := { c with hwClient := some client }
    match be dao with
    | .ok client2 => ({ c1 with domainClient := some client2 }, none)
    | .error e => (c1, some e)

/-- Embedding of `buildClientByToken`: assemble the project-scoped and
domain-scoped `AuthOptions` (agency variant when both agency fields are set),
stamp the identity endpoint and token onto both, and call `genClients`.
Entering this function appends the ghost `AuthStrategy.token` tag. -/
def buildClientByToken (be : AuthBackend) (c : Config) : Config × Option String :=
  let c := { c with attempted := c.attempted ++ [AuthStrategy.token] }
  let pd : AuthOptions × AuthOptions :=
    if c.agencyDomainName ≠ "" ∧ c.agencyName ≠ "" then
      ({ agencyName := c.agencyName, agencyDomainName := c.agencyDomainName,
         delegatedProject := c.delegatedProject },
       { agencyName := c.agencyName, agencyDomainName := c.agencyDomainName })
    else
      ({ domainID := c.domainID, domainName := c.domainName,
         tenantID := c.tenantID, tenantName := c.tenantName },
       { domainID := c.domainID, domainName := c.domainName })
  let pao := { pd.1 with identityEndpoint := c.identityEndpoint, tokenID := c.token }
  let dao := { pd.2 with identityEndpoint := c.identityEndpoint, tokenID := c.token }
  genClients be c (.opts pao) (.opts dao)

/-- Embedding of `buildClientByAKSK`: assemble the project-scoped and
domain-scoped `AKSKAuthOptions` (agency variant when both agency fields are
set), stamp the identity endpoint and the access/secret keys onto both, and
call `genClients`.  Entering appends the ghost `AuthStrategy.aksk` tag. -/
def buildClientByAKSK (be : AuthBackend) (c : Config) : Config × Option String :=
  let c := { c with attempted := c.attempted ++ [AuthStrategy.aksk] }
  let pd : AKSKAuthOptions × AKSKAuthOptions :=
    if c.agencyDomainName ≠ "" ∧ c.agencyName ≠ "" then
      ({ domainID := c.domainID, domain := c.domainName,
         agencyName := c.agencyName, agencyDomainName := c.agencyDomainName,
         delegatedProject := c.delegatedProject },
       { domainID := c.domainID, domain := c.domainName,
         agencyName := c.agencyName, agencyDomainName := c.agencyDomainName })
    else
      ({ bssDomainID := c.domainID, bssDomain := c.domainName,
         projectName := c.tenantName, projectId := c.tenantID },
       { domainID := c.domainID, domain := c.domainName })
  let pao :=
    { pd.1 with
      identityEndpoint := c.identityEndpoint
      accessKey := c.accessKey
      secretKey := c.secretKey }
  let dao :=
    { pd.2 with
      identityEndpoint := c.identityEndpoint
      accessKey := c.accessKey
      secretKey := c.secretKey }
  genClients be c (.aksk pao) (.aksk dao)

/-- Embedding of `buildClientByPassword`: assemble the project-scoped and
domain-scoped `AuthOptions` (agency variant when both agency fields are set),
stamp the identity endpoint, password, username and user ID onto both, and
call `genClients`.  Entering appends the ghost `AuthStrategy.password` tag. -/
def buildClientByPassword (be : AuthBackend) (c : Config) : Config × Option String :=
  let c := { c with attempted := c.attempted ++ [AuthStrategy.password] }
  let pd : AuthOptions × AuthOptions :=
    if c.agencyDomainName ≠ "" ∧ c.agencyName ≠ "" then
      ({ domainID := c.domainID, domainName := c.domainName,
         agencyName := c.agencyName, agencyDomainName := c.agencyDomainName,
         delegatedProject := c.delegatedProject },
       { domainID := c.domainID, domainName := c.domainName,
         agencyName := c.agencyName, agencyDomainName := c.agencyDomainName })
    else
      ({ domainID := c.domainID, domainName := c.domainName,
         tenantID := c.tenantID, tenantName := c.tenantName },
       { domainID := c.domainID, domainName := c.domainName })
  let pao :=
    { pd.1 with
      identityEndpoint := c.identityEndpoint
      password := c.password
      username := c.username
      userID := c.userID }
  let dao :=
    { pd.2 with
      identityEndpoint := c.identityEndpoint
      password := c.password
      username := c.username
      userID := c.userID }
  genClients be c (.opts pao) (.opts dao)

/-- Embedding of `Config.newS3Session`: only acts (and can only fail) when
both the access key and the secret key are configured. -/
def newS3Session (s3be : S3Backend) (c : Config) : Option String :=
  if c.accessKey ≠ "" ∧ c.secretKey ≠ "" then s3be else none

/-- Embedding of `Config.LoadAndValidate`: reject a negative `maxRetries`,
then run the first strategy whose guard matches — token, then key pair, then
password (the password branch failing a username/user-ID validation check
without building anything) — defaulting to the must-config error when no
guard matches; on strategy success, finish with `newS3Session`. -/
def loadAndValidate (be : AuthBackend) (s3be : S3Backend) (c : Config) :
    Config × Option String :=
  if c.maxRetries < 0 then (c, some "max_retries should be a positive value")
  else
    let r :=
      if c.token ≠ "" then buildClientByToken be c
      else if c.accessKey ≠ "" ∧ c.secretKey ≠ "" then buildClientByAKSK be c
      else if c.password ≠ "" then
        if c.username = "" ∧ c.userID = "" then
          (c, some "\"password\": one of `user_name, user_id` must be specified")
        else buildClientByPassword be c
      else (c, some "Must config token or aksk or username password to be authorized")
    match r with
    | (c1, some e) => (c1, some e)
    | (c1, none) => (c1, newS3Session s3be c1)

/-- The `Config` literal `configureProvider` (`huaweicloud/provider.go`)
assembles before calling `LoadAndValidate`: tenant name and delegated project
default to the region, the client pointers are nil, the region map is a fresh
empty map (and the ghost fields start empty). -/
def initConfig (c0 : Config) : Config :=
  let tn := if c0.tenantName ≠ "" then c0.tenantName else c0.region
  let dp := if c0.delegatedProject ≠ "" then c0.delegatedProject else c0.region
  { c0 with
      tenantName := tn, delegatedProject := dp,
      hwClient := none, domainClient := none,
      regionProjectIDMap := [], attempted := [], queryLog := [] }

/-- The post-`LoadAndValidate` seeding step of `configureProvider`:
`if config.HwClient != nil && config.HwClient.ProjectID != "" {
config.RegionProjectIDMap[config.Region] = config.HwClient.ProjectID }`. -/
def seedRegionMap (c1 : Config) : Config :=
  match c1.hwClient with
  | some hw =>
    if hw.projectID ≠ "" then
      { c1 with
          regionProjectIDMap := mapPut c1.regionProjectIDMap c1.region hw.projectID }
    else c1
  | none => c1

/-- Embedding of `configureProvider`: build the initial configuration, run
`LoadAndValidate` (fatal on error), then pre-seed `RegionProjectIDMap` with
the default region when the project-scoped client carries a project ID. -/
def configureProvider (be : AuthBackend) (s3be : S3Backend) (c0 : Config) :
    Except String Config :=
  match loadAndValidate be s3be (initConfig c0) with
  | (_, some e) => .error e
  | (c1, none) => .ok (seedRegionMap c1)

/-! Section: Helper lemmas -/

theorem genClients_fst_attempted (be : AuthBackend) (c : Config)
    (pao dao : AuthOptionsProvider) :
    ((genClients be c pao dao).1).attempted = c.attempted := by
  unfold genClients
  cases be pao with
  | error e => rfl
  | ok client =>
    cases be dao with
    | ok client2 => rfl
    | error e => rfl

theorem buildClientByToken_fst_attempted (be : AuthBackend) (c : Config) :
    ((buildClientByToken be c).1).attempted = c.attempted ++ [AuthStrategy.token] := by
  unfold buildClientByToken
  rw [genClients_fst_attempted]

theorem buildClientByAKSK_fst_attempted (be : AuthBackend) (c : Config) :
    ((buildClientByAKSK be c).1).attempted = c.attempted ++ [AuthStrategy.aksk] := by
  unfold buildClientByAKSK
  rw [genClients_fst_attempted]

theorem buildClientByPassword_fst_attempted (be : AuthBackend) (c : Config) :
    ((buildClientByPassword be c).1).attempted = c.attempted ++ [AuthStrategy.password] := by
  unfold buildClientByPassword
  rw [genClients_fst_attempted]

/-- Auth backend that accepts anything (used by concrete witnesses). -/
def beOk : AuthBackend := fun _ => Except.ok {}

/-- Identity backend that is never consulted successfully
(used by witnesses whose runs stay on the cache-hit or error paths). -/
def ibeEmpty : IdentityBackend := fun _ _ => ProjectsResult.listErr "unreachable"

/-! Section: C1 -/

/-- Project-scoped auth options produced by `buildClientByToken` for `cC1`. -/
def paoC1 : AuthOptions := { tokenID := "tok", tenantName := "tn" }

/-- Domain-scoped auth options produced by `buildClientByToken` for `cC1`. -/
def daoC1 : AuthOptions := { tokenID := "tok" }

/-- Auth backend that accepts exactly the project-scoped options `paoC1`
and rejects everything else. -/
def beC1 : AuthBackend := fun ao =>
  if ao = AuthOptionsProvider.opts paoC1 then Except.ok {}
  else Except.error "domain-scope auth rejected"

/-- Token-auth configuration whose project- and domain-scoped auth options
differ (the tenant name is set), so the backend can accept one and reject
the other. -/
def cC1 : Config := { token := "tok", tenantName := "tn" }

/-- C1 counterexample: a configuration for which `genClient` succeeds on the
project-scoped options and fails on the domain-scoped options, yet
`genClients` (and hence `LoadAndValidate`) returns the domain-scope error
rather than succeeding — `genClients` ends with `return err` after the
domain-scoped attempt, so a domain-scope failure is fatal, not tolerated. -/
theorem genClients_domain_failure_fatal :
    beC1 (AuthOptionsProvider.opts paoC1) = Except.ok {} ∧
    beC1 (AuthOptionsProvider.opts daoC1) = Except.error "domain-scope auth rejected" ∧
    (genClients beC1 cC1 (AuthOptionsProvider.opts paoC1)
      (AuthOptionsProvider.opts daoC1)).2 = some "domain-scope auth rejected" ∧
    (loadAndValidate beC1 none cC1).2 = some "domain-scope auth rejected" := by
  refine ⟨rfl, ?_, ?_, ?_⟩ <;> rfl

/-- C1 (amended): the pair of client constructions is *not* asymmetric in the
claimed sense — if the project-scoped construction succeeds and the
domain-scoped construction fails, `genClients` stores the project-scoped
client in `HwClient`, leaves `DomainClient` absent, and returns the
domain-scoped error (so `LoadAndValidate` fails). -/
theorem genClients_domain_error_propagates (be : AuthBackend) (c : Config)
    (pao dao : AuthOptionsProvider) (client : ProviderClient) (e : String)
    (hp : be pao = Except.ok client) (hd : be dao = Except.error e) :
    genClients be c pao dao = ({ c with hwClient := some client }, some e) := by
  unfold genClients
  rw [hp, hd]

/-- C1 witness: the amended theorem at the concrete backend `beC1`. -/
theorem genClients_domain_error_propagates_witness :
    beC1 (AuthOptionsProvider.opts paoC1) = Except.ok {} ∧
    genClients beC1 cC1 (AuthOptionsProvider.opts paoC1)
        (AuthOptionsProvider.opts daoC1) =
      ({ cC1 with hwClient := some {} }, some "domain-scope auth rejected") :=
  ⟨rfl, genClients_domain_error_propagates beC1 cC1
    (AuthOptionsProvider.opts paoC1) (AuthOptionsProvider.opts daoC1) {}
    "domain-scope auth rejected" rfl rfl⟩

/-! Section: C2 -/

/-- C2: `LoadAndValidate` selects exactly one authentication strategy in fixed
priority order: token when `Token` is non-empty; else key pair when both
`AccessKey` and `SecretKey` are non-empty; else password when `Password` is
non-empty, which fails with the username/user-ID validation error when both
`Username` and `UserID` are empty; and when no strategy is fully specified it
fails with the must-config error without attempting any strategy. -/
theorem loadAndValidate_strategy_priority (be : AuthBackend) (s3be : S3Backend)
    (c : Config) (hr : ¬c.maxRetries < 0) (ha : c.attempted = []) :
    (c.token ≠ "" →
      ((loadAndValidate be s3be c).1).attempted = [AuthStrategy.token]) ∧
    (c.token = "" → c.accessKey ≠ "" → c.secretKey ≠ "" →
      ((loadAndValidate be s3be c).1).attempted = [AuthStrategy.aksk]) ∧
    (c.token = "" → ¬(c.accessKey ≠ "" ∧ c.secretKey ≠ "") → c.password ≠ "" →
      ¬(c.username = "" ∧ c.userID = "") →
      ((loadAndValidate be s3be c).1).attempted = [AuthStrategy.password]) ∧
    (c.token = "" → ¬(c.accessKey ≠ "" ∧ c.secretKey ≠ "") → c.password ≠ "" →
      c.username = "" → c.userID = "" →
      loadAndValidate be s3be c =
        (c, some "\"password\": one of `user_name, user_id` must be specified")) ∧
    (c.token = "" → ¬(c.accessKey ≠ "" ∧ c.secretKey ≠ "") → c.password = "" →
      loadAndValidate be s3be c =
        (c, some "Must config token or aksk or username password to be authorized")) := by
  refine ⟨?_, ?_, ?_, ?_, ?_⟩
  · intro ht
    simp only [loadAndValidate, if_neg hr, if_pos ht]
    rcases h : buildClientByToken be c with ⟨c1, e?⟩
    have hatt : c1.attempted = c.attempted ++ [AuthStrategy.token] := by
      have h2 := buildClientByToken_fst_attempted be c
      rw [h] at h2
      exact h2
    cases e? <;> simp [hatt, ha]
  · intro ht hak hsk
    have hnt : ¬(c.token ≠ "") := fun h2 => h2 ht
    simp only [loadAndValidate, if_neg hr, if_neg hnt, if_pos (And.intro hak hsk)]
    rcases h : buildClientByAKSK be c with ⟨c1, e?⟩
    have hatt : c1.attempted = c.attempted ++ [AuthStrategy.aksk] := by
      have h2 := buildClientByAKSK_fst_attempted be c
      rw [h] at h2
      exact h2
    cases e? <;> simp [hatt, ha]
  · intro ht haksk hpw hui
    have hnt : ¬(c.token ≠ "") := fun h2 => h2 ht
    simp only [loadAndValidate, if_neg hr, if_neg hnt,
      if_neg haksk, if_pos hpw, if_neg hui]
    rcases h : buildClientByPassword be c with ⟨c1, e?⟩
    have hatt : c1.attempted = c.attempted ++ [AuthStrategy.password] := by
      have h2 := buildClientByPassword_fst_attempted be c
      rw [h] at h2
      exact h2
    cases e? <;> simp [hatt, ha]
  · intro ht haksk hpw hu hi
    have hnt : ¬(c.token ≠ "") := fun h2 => h2 ht
    simp only [loadAndValidate, if_neg hr, if_neg hnt,
      if_neg haksk, if_pos hpw, if_pos (And.intro hu hi)]
  · intro ht haksk hpw
    have hnt : ¬(c.token ≠ "") := fun h2 => h2 ht
    have hnp : ¬(c.password ≠ "") := fun h2 => h2 hpw
    simp only [loadAndValidate, if_neg hr, if_neg hnt, if_neg haksk, if_neg hnp]

/-- C2 witness: a token-only configuration attempts exactly the token
strategy. -/
theorem loadAndValidate_strategy_priority_witness :
    ¬(({ token := "t" } : Config).maxRetries < 0) ∧
    ((loadAndValidate beOk none { token := "t" }).1).attempted =
      [AuthStrategy.token] := by
  refine ⟨by decide, ?_⟩
  exact (loadAndValidate_strategy_priority beOk none { token := "t" }
    (by decide) rfl).1 (by decide)

/-! Section: C9 -/

/-- C9: a service name that is absent from the catalog table (or whose entry
has an empty name or version) makes `NewServiceClient` return the
must-specify error — the missing entry behaves as the zero-valued catalog
entry, which selects the non-admin base client and is rejected before any
further processing. -/
theorem NewServiceClient_missing_entry (be : IdentityBackend)
    (tab : List (String × ServiceCatalog)) (c : Config) (srv region : String)
    (h : ((List.lookup srv tab).getD {}).name = "" ∨
         ((List.lookup srv tab).getD {}).version = "") :
    NewServiceClient be tab c srv region =
      (c, Except.error "must specify the service name and api version") ∧
    (List.lookup srv tab = none →
      NewServiceClient be tab c srv region =
        newServiceClientByName be c (c.hwClient.getD {}) {} region) := by
  constructor
  · simp only [NewServiceClient, newServiceClientByName, if_pos h]
  · intro hnone
    simp only [NewServiceClient, hnone]
    rfl

/-- C9 witness: looking up a service missing from a concrete catalog table. -/
theorem NewServiceClient_missing_entry_witness :
    List.lookup "vpc" [("ecs", ({ name := "ecs", version := "v1" } : ServiceCatalog))] = none ∧
    NewServiceClient ibeEmpty [("ecs", { name := "ecs", version := "v1" })] {} "vpc" "r1" =
      ({}, Except.error "must specify the service name and api version") := by
  refine ⟨by decide, ?_⟩
  exact (NewServiceClient_missing_entry ibeEmpty
    [("ecs", { name := "ecs", version := "v1" })] {} "vpc" "r1"
    (Or.inl (by decide))).1

/-! Section: Path lemmas for `loadUserProjects` and `newServiceClientByName` -/

theorem loadUserProjects_listErr (be : IdentityBackend) (c : Config)
    (client : ProviderClient) (region e : String)
    (hbe : be client.domainID region = ProjectsResult.listErr e) :
    loadUserProjects be c client region =
      ({ c with queryLog := c.queryLog ++ [(client.domainID, region)] },
       some ("List projects failed, err=" ++ e)) := by
  unfold loadUserProjects
  rw [hbe]

theorem loadUserProjects_extractErr (be : IdentityBackend) (c : Config)
    (client : ProviderClient) (region e : String)
    (hbe : be client.domainID region = ProjectsResult.extractErr e) :
    loadUserProjects be c client region =
      ({ c with queryLog := c.queryLog ++ [(client.domainID, region)] },
       some ("Extract projects failed, err=" ++ e)) := by
  unfold loadUserProjects
  rw [hbe]

theorem loadUserProjects_empty (be : IdentityBackend) (c : Config)
    (client : ProviderClient) (region : String)
    (hbe : be client.domainID region = ProjectsResult.ok []) :
    loadUserProjects be c client region =
      ({ c with queryLog := c.queryLog ++ [(client.domainID, region)] },
       some ("Wrong name or no access to the region: " ++ region)) := by
  unfold loadUserProjects
  rw [hbe]
  rfl

theorem loadUserProjects_store (be : IdentityBackend) (c : Config)
    (client : ProviderClient) (region : String) (ps : List Project)
    (hbe : be client.domainID region = ProjectsResult.ok ps)
    (hne : ps.isEmpty = false) :
    loadUserProjects be c client region =
      ({ c with
          queryLog := c.queryLog ++ [(client.domainID, region)],
          regionProjectIDMap := storeProjects c.regionProjectIDMap ps }, none) := by
  unfold loadUserProjects
  rw [hbe]
  simp [hne]

/-- The success value `newServiceClientByName` assembles, as a function of the
base client, the catalog entry, the region and the post-resolution state
fields it reads (an internal abbreviation for the path lemmas below). -/
def renderedClient (client : ProviderClient) (catalog : ServiceCatalog)
    (region : String) (regionClient : Bool) (cloud : String)
    (m : List (String × String)) : ServiceClient :=
  let projectID := (List.lookup region m).getD ""
  let clone : ProviderClient :=
    { client with
        projectID := projectID,
        akskAuthOptions :=
          { client.akskAuthOptions with projectId := projectID, region := region } }
  let endpoint :=
    if catalog.scope = "global" ∧ ¬regionClient then
      "https://" ++ catalog.name ++ "." ++ cloud ++ "/"
    else
      "https://" ++ catalog.name ++ "." ++ region ++ "." ++ cloud ++ "/"
  let rb0 := endpoint ++ catalog.version ++ "/"
  let rb1 := if !catalog.withOutProjectID then rb0 ++ projectID ++ "/" else rb0
  let rb2 :=
    if catalog.resourceBase ≠ "" then rb1 ++ catalog.resourceBase ++ "/" else rb1
  { providerClient := clone, endpoint := endpoint, resourceBase := rb2 }

theorem nsc_hit (be : IdentityBackend) (c : Config) (client : ProviderClient)
    (catalog : ServiceCatalog) (region : String)
    (h1 : ¬(catalog.name = "" ∨ catalog.version = ""))
    (h2 : ¬(region ≠ c.region ∧ (c.accessKey = "" ∨ c.secretKey = "")))
    (hsome : (List.lookup region c.regionProjectIDMap).isSome = true) :
    newServiceClientByName be c client catalog region =
      (c, Except.ok (renderedClient client catalog region c.regionClient c.cloud
        c.regionProjectIDMap)) := by
  unfold newServiceClientByName
  rw [if_neg h1, if_neg h2, if_pos hsome]
  rfl

theorem nsc_miss_ok (be : IdentityBackend) (c : Config) (client : ProviderClient)
    (catalog : ServiceCatalog) (region : String) (c1 : Config)
    (h1 : ¬(catalog.name = "" ∨ catalog.version = ""))
    (h2 : ¬(region ≠ c.region ∧ (c.accessKey = "" ∨ c.secretKey = "")))
    (hnone : List.lookup region c.regionProjectIDMap = none)
    (hload : loadUserProjects be c client region = (c1, none)) :
    newServiceClientByName be c client catalog region =
      (c1, Except.ok (renderedClient client catalog region c1.regionClient c1.cloud
        c1.regionProjectIDMap)) := by
  unfold newServiceClientByName
  rw [if_neg h1, if_neg h2, hnone]
  simp only [Option.isSome_none, Bool.false_eq_true, if_false, hload]
  rfl

theorem nsc_miss_err (be : IdentityBackend) (c : Config) (client : ProviderClient)
    (catalog : ServiceCatalog) (region : String) (c1 : Config) (e : String)
    (h1 : ¬(catalog.name = "" ∨ catalog.version = ""))
    (h2 : ¬(region ≠ c.region ∧ (c.accessKey = "" ∨ c.secretKey = "")))
    (hnone : List.lookup region c.regionProjectIDMap = none)
    (hload : loadUserProjects be c client region = (c1, some e)) :
    newServiceClientByName be c client catalog region = (c1, Except.error e) := by
  unfold newServiceClientByName
  rw [if_neg h1, if_neg h2, hnone]
  simp only [Option.isSome_none, Bool.false_eq_true, if_false, hload]

theorem nsc_region_reject (be : IdentityBackend) (c : Config)
    (client : ProviderClient) (catalog : ServiceCatalog) (region : String)
    (h1 : ¬(catalog.name = "" ∨ catalog.version = ""))
    (h2 : region ≠ c.region ∧ (c.accessKey = "" ∨ c.secretKey = "")) :
    newServiceClientByName be c client catalog region =
      (c, Except.error "Resource-level region must be the same as Provider-level region when using non AK/SK authentication if Resource-level region set") := by
  unfold newServiceClientByName
  rw [if_neg h1, if_pos h2]

/-- The four path lemmas are exhaustive on the success side: a successful
call is either a cache hit returning the input state, or a cache miss whose
`loadUserProjects` succeeded. -/
theorem nsc_ok_cases (be : IdentityBackend) (c : Config) (client : ProviderClient)
    (catalog : ServiceCatalog) (region : String) (c' : Config) (sc : ServiceClient)
    (h : newServiceClientByName be c client catalog region = (c', Except.ok sc)) :
    ¬(catalog.name = "" ∨ catalog.version = "") ∧
    ¬(region ≠ c.region ∧ (c.accessKey = "" ∨ c.secretKey = "")) ∧
    ((((List.lookup region c.regionProjectIDMap).isSome = true ∧ c' = c) ∨
      (List.lookup region c.regionProjectIDMap = none ∧
        loadUserProjects be c client region = (c', none))) ∧
     sc = renderedClient client catalog region c'.regionClient c'.cloud
        c'.regionProjectIDMap) := by
  by_cases h1 : catalog.name = "" ∨ catalog.version = ""
  · unfold newServiceClientByName at h
    rw [if_pos h1] at h
    simp at h
  by_cases h2 : region ≠ c.region ∧ (c.accessKey = "" ∨ c.secretKey = "")
  · rw [nsc_region_reject be c client catalog region h1 h2] at h
    simp at h
  refine ⟨h1, h2, ?_⟩
  by_cases hs : (List.lookup region c.regionProjectIDMap).isSome = true
  · rw [nsc_hit be c client catalog region h1 h2 hs] at h
    simp only [Prod.mk.injEq, Except.ok.injEq] at h
    obtain ⟨hc, hsc⟩ := h
    subst hc
    subst hsc
    exact ⟨Or.inl ⟨hs, rfl⟩, rfl⟩
  · have hl : List.lookup region c.regionProjectIDMap = none :=
      Option.not_isSome_iff_eq_none.mp hs
    rcases hload : loadUserProjects be c client region with ⟨c1, e?⟩
    cases e? with
    | some e =>
      rw [nsc_miss_err be c client catalog region c1 e h1 h2 hl hload] at h
      simp at h
    | none =>
      rw [nsc_miss_ok be c client catalog region c1 h1 h2 hl hload] at h
      simp only [Prod.mk.injEq, Except.ok.injEq] at h
      obtain ⟨hc, hsc⟩ := h
      subst hc
      subst hsc
      exact ⟨Or.inr ⟨hl, rfl⟩, rfl⟩

theorem loadUserProjects_fst_shape (be : IdentityBackend) (c : Config)
    (client : ProviderClient) (region : String) :
    ∃ m, (loadUserProjects be c client region).1 =
      { c with
          queryLog := c.queryLog ++ [(client.domainID, region)],
          regionProjectIDMap := m } := by
  unfold loadUserProjects
  cases be client.domainID region with
  | listErr e => exact ⟨c.regionProjectIDMap, rfl⟩
  | extractErr e => exact ⟨c.regionProjectIDMap, rfl⟩
  | ok all =>
    cases hq : all.isEmpty with
    | true => exact ⟨c.regionProjectIDMap, by simp [hq]⟩
    | false => exact ⟨storeProjects c.regionProjectIDMap all, by simp [hq]⟩

/-- The provider fields `newServiceClientByName` can never touch (everything
except the region map and the ghost query log) survive a successful call. -/
theorem nsc_ok_fields (be : IdentityBackend) (c : Config) (client : ProviderClient)
    (catalog : ServiceCatalog) (region : String) (c' : Config) (sc : ServiceClient)
    (h : newServiceClientByName be c client catalog region = (c', Except.ok sc)) :
    c'.regionClient = c.regionClient ∧ c'.cloud = c.cloud ∧
    c'.region = c.region ∧ c'.accessKey = c.accessKey ∧
    c'.secretKey = c.secretKey ∧ c'.hwClient = c.hwClient ∧
    c'.domainClient = c.domainClient := by
  obtain ⟨h1, h2, hcase, hsc⟩ := nsc_ok_cases be c client catalog region c' sc h
  rcases hcase with ⟨hs, hceq⟩ | ⟨hl, hload⟩
  · subst hceq
    exact ⟨rfl, rfl, rfl, rfl, rfl, rfl, rfl⟩
  · obtain ⟨m, hm⟩ := loadUserProjects_fst_shape be c client region
    have hc1 : c' = (loadUserProjects be c client region).1 := by rw [hload]
    rw [hc1, hm]
    exact ⟨rfl, rfl, rfl, rfl, rfl, rfl, rfl⟩

/-! Section: C4 -/

/-- C4: for every successful `newServiceClientByName` call, the endpoint is
`https://{name}.{cloud}/` for a global-scoped entry when the provider is not
in region-client mode and `https://{name}.{region}.{cloud}/` otherwise, and
the resource base is the endpoint, then the version segment, then the
resolved project-ID segment unless the entry is flagged `WithOutProjectID`,
then the entry's fixed resource-base suffix when non-empty. -/
theorem newServiceClientByName_rendering (be : IdentityBackend) (c : Config)
    (client : ProviderClient) (catalog : ServiceCatalog) (region : String)
    (c' : Config) (sc : ServiceClient)
    (h : newServiceClientByName be c client catalog region = (c', Except.ok sc)) :
    sc.endpoint =
      (if catalog.scope = "global" ∧ ¬c.regionClient then
        "https://" ++ catalog.name ++ "." ++ c.cloud ++ "/"
      else
        "https://" ++ catalog.name ++ "." ++ region ++ "." ++ c.cloud ++ "/") ∧
    sc.resourceBase =
      (let projectID := (List.lookup region c'.regionProjectIDMap).getD ""
       let rb0 := sc.endpoint ++ catalog.version ++ "/"
       let rb1 := if !catalog.withOutProjectID then rb0 ++ projectID ++ "/" else rb0
       if catalog.resourceBase ≠ "" then rb1 ++ catalog.resourceBase ++ "/" else rb1) := by
  obtain ⟨hrc, hcl, -, -, -, -, -⟩ :=
    nsc_ok_fields be c client catalog region c' sc h
  obtain ⟨h1, h2, hcase, hsc⟩ := nsc_ok_cases be c client catalog region c' sc h
  subst hsc
  rw [← hrc, ← hcl]
  exact ⟨rfl, rfl⟩

/-- Config used by the concrete rendering/clone witnesses: the region map is
pre-seeded so the run stays on the cache-hit path. -/
def cW4 : Config := { region := "r", cloud := "hc", regionProjectIDMap := [("r", "p")] }

/-- Catalog entry used by the concrete rendering/clone witnesses. -/
def catW4 : ServiceCatalog := { name := "svc", version := "v1" }

/-- Service client produced by `newServiceClientByName` on `cW4`/`catW4`. -/
def scW4 : ServiceClient :=
  { providerClient := { projectID := "p", akskAuthOptions := { projectId := "p", region := "r" } },
    endpoint := "https://svc.r.hc/",
    resourceBase := "https://svc.r.hc/v1/p/" }

/-- C4 witness: the rendering theorem at a concrete regional entry. -/
theorem newServiceClientByName_rendering_witness :
    scW4.endpoint = "https://svc.r.hc/" ∧ scW4.resourceBase = "https://svc.r.hc/v1/p/" :=
  ⟨((newServiceClientByName_rendering ibeEmpty cW4 {} catW4 "r" cW4 scW4
      rfl).1).trans (by decide),
   ((newServiceClientByName_rendering ibeEmpty cW4 {} catW4 "r" cW4 scW4
      rfl).2).trans (by decide)⟩

/-! Section: C7 -/

/-- C7: a successful `newServiceClientByName` call leaves the shared base
provider clients stored on the configuration untouched (`HwClient` and
`DomainClient` are unchanged), and the returned service client references a
fresh clone of the passed base client that differs from it only in the
project-ID and region signing overrides. -/
theorem newServiceClientByName_no_base_mutation (be : IdentityBackend)
    (c : Config) (client : ProviderClient) (catalog : ServiceCatalog)
    (region : String) (c' : Config) (sc : ServiceClient)
    (h : newServiceClientByName be c client catalog region = (c', Except.ok sc)) :
    c'.hwClient = c.hwClient ∧ c'.domainClient = c.domainClient ∧
    sc.providerClient =
      { client with
          projectID := (List.lookup region c'.regionProjectIDMap).getD "",
          akskAuthOptions :=
            { client.akskAuthOptions with
                projectId := (List.lookup region c'.regionProjectIDMap).getD "",
                region := region } } := by
  obtain ⟨-, -, -, -, -, hhw, hdc⟩ :=
    nsc_ok_fields be c client catalog region c' sc h
  obtain ⟨h1, h2, hcase, hsc⟩ := nsc_ok_cases be c client catalog region c' sc h
  subst hsc
  exact ⟨hhw, hdc, rfl⟩

/-- C7 witness: the clone theorem at the concrete cache-hit run on `cW4`. -/
theorem newServiceClientByName_no_base_mutation_witness :
    scW4.providerClient =
      ({ projectID := "p", akskAuthOptions := { projectId := "p", region := "r" } } :
        ProviderClient) :=
  ((newServiceClientByName_no_base_mutation ibeEmpty cW4 {} catW4 "r" cW4 scW4
    rfl).2.2).trans (by decide)

theorem nsc_name_reject (be : IdentityBackend) (c : Config)
    (client : ProviderClient) (catalog : ServiceCatalog) (region : String)
    (h1 : catalog.name = "" ∨ catalog.version = "") :
    newServiceClientByName be c client catalog region =
      (c, Except.error "must specify the service name and api version") := by
  unfold newServiceClientByName
  rw [if_pos h1]

/-! Section: C3 -/

/-- C3 counterexample: a configuration carrying a token *and* an AK/SK pair
authenticates with the token strategy (the auth priority order), yet a
service-client request for a region different from the provider region is
*not* rejected — the region check tests only the presence of the configured
access/secret keys, not the active strategy. -/
def cC3 : Config :=
  { token := "t", accessKey := "ak", secretKey := "sk", region := "r1",
    cloud := "hc", regionProjectIDMap := [("r2", "p2")] }

/-- C3 counterexample theorem: with `cC3`, the active strategy is token auth,
the requested region `"r2"` differs from the provider region, and the
request nevertheless succeeds instead of failing with the region-mismatch
error. -/
theorem nsc_region_check_counterexample :
    cC3.token ≠ "" ∧
    ((loadAndValidate beOk none cC3).1).attempted = [AuthStrategy.token] ∧
    "r2" ≠ ((loadAndValidate beOk none cC3).1).region ∧
    isOk (newServiceClientByName ibeEmpty ((loadAndValidate beOk none cC3).1)
      {} catW4 "r2").2 = true := by
  refine ⟨by decide, by decide, by decide, by decide⟩

/-- C3 (amended): the region check is keyed on the *presence of configured
access/secret keys*, not on the active authentication strategy: when the
requested region differs from the provider region and the access key or
secret key is empty, `newServiceClientByName` fails with the region-mismatch
error before any project-ID resolution (the state, including the ghost query
log, is unchanged); when both keys are non-empty and the region is resolvable
(cached, or the identity query succeeds with a non-empty listing), the same
request succeeds. -/
theorem newServiceClientByName_region_check (be : IdentityBackend) (c : Config)
    (client : ProviderClient) (catalog : ServiceCatalog) (region : String)
    (hn : catalog.name ≠ "") (hv : catalog.version ≠ "")
    (hr : region ≠ c.region) :
    ((c.accessKey = "" ∨ c.secretKey = "") →
      newServiceClientByName be c client catalog region =
        (c, Except.error "Resource-level region must be the same as Provider-level region when using non AK/SK authentication if Resource-level region set")) ∧
    (c.accessKey ≠ "" → c.secretKey ≠ "" →
      ((List.lookup region c.regionProjectIDMap).isSome = true ∨
        (∃ ps, be client.domainID region = ProjectsResult.ok ps ∧
          ps.isEmpty = false)) →
      isOk (newServiceClientByName be c client catalog region).2 = true) := by
  have h1 : ¬(catalog.name = "" ∨ catalog.version = "") :=
    fun hor => hor.elim hn hv
  constructor
  · intro hks
    exact nsc_region_reject be c client catalog region h1 ⟨hr, hks⟩
  · intro hak hsk hres
    have h2 : ¬(region ≠ c.region ∧ (c.accessKey = "" ∨ c.secretKey = "")) :=
      fun hand => hand.2.elim hak hsk
    rcases hres with hsome | ⟨ps, hbe, hne⟩
    · rw [nsc_hit be c client catalog region h1 h2 hsome]
      rfl
    · by_cases hs : (List.lookup region c.regionProjectIDMap).isSome = true
      · rw [nsc_hit be c client catalog region h1 h2 hs]
        rfl
      · have hl : List.lookup region c.regionProjectIDMap = none :=
          Option.not_isSome_iff_eq_none.mp hs
        rw [nsc_miss_ok be c client catalog region _ h1 h2 hl
          (loadUserProjects_store be c client region ps hbe hne)]
        rfl

/-- C3 witness: the amended theorem at concrete inputs — removing the access
key makes the cross-region request fail; with both keys and a cached region
it succeeds. -/
theorem newServiceClientByName_region_check_witness :
    newServiceClientByName ibeEmpty { cC3 with accessKey := "" } {} catW4 "r2" =
      ({ cC3 with accessKey := "" },
       Except.error "Resource-level region must be the same as Provider-level region when using non AK/SK authentication if Resource-level region set") ∧
    isOk (newServiceClientByName ibeEmpty cC3 {} catW4 "r2").2 = true :=
  ⟨(newServiceClientByName_region_check ibeEmpty { cC3 with accessKey := "" }
      {} catW4 "r2" (by decide) (by decide) (by decide)).1 (Or.inl (by decide)),
   (newServiceClientByName_region_check ibeEmpty cC3 {} catW4 "r2"
      (by decide) (by decide) (by decide)).2 (by decide) (by decide)
      (Or.inl (by decide))⟩

/-! Section: C5 -/

/-- C5: region resolution is an idempotent cache fill — for a region not in
`RegionProjectIDMap`, a first construction whose identity query succeeds with
at least one (name-filtered) project stores the region in the map and logs
exactly one identity query, and a second construction for the same region
returns the state unchanged (in particular it appends nothing to the ghost
query log: `loadUserProjects` is not invoked again) and succeeds from the
cached value. -/
theorem newServiceClientByName_cache_fill (be : IdentityBackend) (c : Config)
    (client : ProviderClient) (catalog : ServiceCatalog) (region : String)
    (ps : List Project)
    (hn : catalog.name ≠ "") (hv : catalog.version ≠ "")
    (hreg : ¬(region ≠ c.region ∧ (c.accessKey = "" ∨ c.secretKey = "")))
    (hmiss : List.lookup region c.regionProjectIDMap = none)
    (hbe : be client.domainID region = ProjectsResult.ok ps)
    (hne : ps.isEmpty = false)
    (hfil : ∀ p ∈ ps, p.name = region) :
    (List.lookup region
      ((newServiceClientByName be c client catalog region).1).regionProjectIDMap).isSome
        = true ∧
    ((newServiceClientByName be c client catalog region).1).queryLog =
      c.queryLog ++ [(client.domainID, region)] ∧
    (newServiceClientByName be ((newServiceClientByName be c client catalog region).1)
        client catalog region).1 =
      (newServiceClientByName be c client catalog region).1 ∧
    isOk (newServiceClientByName be
        ((newServiceClientByName be c client catalog region).1)
        client catalog region).2 = true := by
  have h1 : ¬(catalog.name = "" ∨ catalog.version = "") :=
    fun hor => hor.elim hn hv
  have hne2 : ps ≠ [] := by
    intro h0
    subst h0
    simp at hne
  have hload := loadUserProjects_store be c client region ps hbe hne
  have hfst := nsc_miss_ok be c client catalog region _ h1 hreg hmiss hload
  have e1 : (newServiceClientByName be c client catalog region).1 =
      { c with
          queryLog := c.queryLog ++ [(client.domainID, region)],
          regionProjectIDMap := storeProjects c.regionProjectIDMap ps } := by
    rw [hfst]
  have hsome1 : (List.lookup region
      (storeProjects c.regionProjectIDMap ps)).isSome = true :=
    lookup_storeProjects_mem ps c.regionProjectIDMap region hne2 hfil
  have hreg2 : ¬(region ≠ ((newServiceClientByName be c client catalog region).1).region ∧
      (((newServiceClientByName be c client catalog region).1).accessKey = "" ∨
       ((newServiceClientByName be c client catalog region).1).secretKey = "")) := by
    rw [e1]
    exact hreg
  have hsome2 : (List.lookup region
      ((newServiceClientByName be c client catalog region).1).regionProjectIDMap).isSome
        = true := by
    rw [e1]
    exact hsome1
  refine ⟨?_, ?_, ?_, ?_⟩
  · rw [e1]
    exact hsome1
  · rw [e1]
  · rw [nsc_hit be ((newServiceClientByName be c client catalog region).1)
      client catalog region h1 hreg2 hsome2]
  · rw [nsc_hit be ((newServiceClientByName be c client catalog region).1)
      client catalog region h1 hreg2 hsome2]
    rfl

/-- Empty config with only the default region set (shared by witnesses). -/
def cW5 : Config := { region := "r" }

/-- Identity backend answering every query with exactly one project named
after the queried region (shared by witnesses). -/
def beW5 : IdentityBackend := fun _ r => ProjectsResult.ok [{ name := r, id := "pid" }]

/-- C5 witness: the cache-fill theorem at a concrete one-project backend. -/
theorem newServiceClientByName_cache_fill_witness :
    (List.lookup "r"
      ((newServiceClientByName beW5 cW5 {} catW4 "r").1).regionProjectIDMap).isSome
        = true ∧
    (newServiceClientByName beW5 ((newServiceClientByName beW5 cW5 {} catW4 "r").1)
        {} catW4 "r").1 =
      (newServiceClientByName beW5 cW5 {} catW4 "r").1 :=
  ⟨(newServiceClientByName_cache_fill beW5 cW5 {} catW4 "r"
      [{ name := "r", id := "pid" }] (by decide) (by decide) (by decide)
      (by decide) rfl (by decide) (by decide)).1,
   (newServiceClientByName_cache_fill beW5 cW5 {} catW4 "r"
      [{ name := "r", id := "pid" }] (by decide) (by decide) (by decide)
      (by decide) rfl (by decide) (by decide)).2.2.1⟩

/-! Section: C6 -/

/-- C6: no negative caching, and failures are atomic — when the identity
query for an uncached region succeeds with zero projects the call fails with
the wrong-name error and `RegionProjectIDMap` is unchanged, and when the
query fails with a listing (transport/API) or extraction error that error
propagates with the map unchanged; in every failure case a subsequent call
for the same region re-issues the identity query (it appends a second entry
to the ghost query log). -/
theorem newServiceClientByName_no_negative_caching (be : IdentityBackend)
    (c : Config) (client : ProviderClient) (catalog : ServiceCatalog)
    (region : String)
    (hn : catalog.name ≠ "") (hv : catalog.version ≠ "")
    (hreg : ¬(region ≠ c.region ∧ (c.accessKey = "" ∨ c.secretKey = "")))
    (hmiss : List.lookup region c.regionProjectIDMap = none) :
    (be client.domainID region = ProjectsResult.ok [] →
      newServiceClientByName be c client catalog region =
        ({ c with queryLog := c.queryLog ++ [(client.domainID, region)] },
         Except.error ("Wrong name or no access to the region: " ++ region)) ∧
      ((newServiceClientByName be c client catalog region).1).regionProjectIDMap =
        c.regionProjectIDMap ∧
      ((newServiceClientByName be
          ((newServiceClientByName be c client catalog region).1)
          client catalog region).1).queryLog =
        c.queryLog ++ [(client.domainID, region)] ++ [(client.domainID, region)]) ∧
    (∀ e, be client.domainID region = ProjectsResult.listErr e →
      newServiceClientByName be c client catalog region =
        ({ c with queryLog := c.queryLog ++ [(client.domainID, region)] },
         Except.error ("List projects failed, err=" ++ e)) ∧
      ((newServiceClientByName be c client catalog region).1).regionProjectIDMap =
        c.regionProjectIDMap ∧
      ((newServiceClientByName be
          ((newServiceClientByName be c client catalog region).1)
          client catalog region).1).queryLog =
        c.queryLog ++ [(client.domainID, region)] ++ [(client.domainID, region)]) ∧
    (∀ e, be client.domainID region = ProjectsResult.extractErr e →
      newServiceClientByName be c client catalog region =
        ({ c with queryLog := c.queryLog ++ [(client.domainID, region)] },
         Except.error ("Extract projects failed, err=" ++ e)) ∧
      ((newServiceClientByName be c client catalog region).1).regionProjectIDMap =
        c.regionProjectIDMap ∧
      ((newServiceClientByName be
          ((newServiceClientByName be c client catalog region).1)
          client catalog region).1).queryLog =
        c.queryLog ++ [(client.domainID, region)] ++ [(client.domainID, region)]) := by
  have h1 : ¬(catalog.name = "" ∨ catalog.version = "") :=
    fun hor => hor.elim hn hv
  refine ⟨?_, ?_, ?_⟩
  · intro hbe
    have hfst := nsc_miss_err be c client catalog region _ _ h1 hreg hmiss
      (loadUserProjects_empty be c client region hbe)
    refine ⟨hfst, by rw [hfst], ?_⟩
    rw [hfst]
    have hfst2 := nsc_miss_err be
      { c with queryLog := c.queryLog ++ [(client.domainID, region)] }
      client catalog region _ _ h1 hreg hmiss
      (loadUserProjects_empty be _ client region hbe)
    rw [hfst2]
  · intro e hbe
    have hfst := nsc_miss_err be c client catalog region _ _ h1 hreg hmiss
      (loadUserProjects_listErr be c client region e hbe)
    refine ⟨hfst, by rw [hfst], ?_⟩
    rw [hfst]
    have hfst2 := nsc_miss_err be
      { c with queryLog := c.queryLog ++ [(client.domainID, region)] }
      client catalog region _ _ h1 hreg hmiss
      (loadUserProjects_listErr be _ client region e hbe)
    rw [hfst2]
  · intro e hbe
    have hfst := nsc_miss_err be c client catalog region _ _ h1 hreg hmiss
      (loadUserProjects_extractErr be c client region e hbe)
    refine ⟨hfst, by rw [hfst], ?_⟩
    rw [hfst]
    have hfst2 := nsc_miss_err be
      { c with queryLog := c.queryLog ++ [(client.domainID, region)] }
      client catalog region _ _ h1 hreg hmiss
      (loadUserProjects_extractErr be _ client region e hbe)
    rw [hfst2]

/-- Identity backend answering every query with an empty project listing. -/
def beW6 : IdentityBackend := fun _ _ => ProjectsResult.ok []

/-- C6 witness: the no-negative-caching theorem at the zero-project backend. -/
theorem newServiceClientByName_no_negative_caching_witness :
    newServiceClientByName beW6 cW5 {} catW4 "r" =
      ({ cW5 with queryLog := cW5.queryLog ++ [("", "r")] },
       Except.error ("Wrong name or no access to the region: " ++ "r")) ∧
    ((newServiceClientByName beW6 cW5 {} catW4 "r").1).regionProjectIDMap =
      cW5.regionProjectIDMap :=
  ⟨((newServiceClientByName_no_negative_caching beW6 cW5 {} catW4 "r"
      (by decide) (by decide) (by decide) (by decide)).1 rfl).1,
   ((newServiceClientByName_no_negative_caching beW6 cW5 {} catW4 "r"
      (by decide) (by decide) (by decide) (by decide)).1 rfl).2.1⟩

/-! Section: C8 -/

/-- The identity service's documented wire contract: a successful
project-listing response contains only projects whose name matches the
queried region-name filter. -/
def FilteredBackend (be : IdentityBackend) : Prop :=
  ∀ d r ps, be d r = ProjectsResult.ok ps → ∀ p ∈ ps, p.name = r

/-- A sequence of service-client constructions against one configuration
(the per-operation catalog entry and requested region vary freely). -/
def runRequests (be : IdentityBackend) (client : ProviderClient)
    (reqs : List (ServiceCatalog × String)) (c : Config) : Config :=
  reqs.foldl (fun cc req => (newServiceClientByName be cc client req.1 req.2).1) c

theorem nsc_fst_preserves_bindings (be : IdentityBackend) (c : Config)
    (client : ProviderClient) (catalog : ServiceCatalog) (region : String)
    (k v : String) (hfb : FilteredBackend be)
    (hkv : List.lookup k c.regionProjectIDMap = some v) :
    List.lookup k
      ((newServiceClientByName be c client catalog region).1).regionProjectIDMap
      = some v := by
  by_cases h1 : catalog.name = "" ∨ catalog.version = ""
  · rw [nsc_name_reject be c client catalog region h1]
    exact hkv
  by_cases h2 : region ≠ c.region ∧ (c.accessKey = "" ∨ c.secretKey = "")
  · rw [nsc_region_reject be c client catalog region h1 h2]
    exact hkv
  by_cases hs : (List.lookup region c.regionProjectIDMap).isSome = true
  · rw [nsc_hit be c client catalog region h1 h2 hs]
    exact hkv
  have hl : List.lookup region c.regionProjectIDMap = none :=
    Option.not_isSome_iff_eq_none.mp hs
  have hkne : k ≠ region := by
    intro h0
    rw [h0, hl] at hkv
    exact Option.noConfusion hkv
  cases hbe : be client.domainID region with
  | listErr e =>
    rw [nsc_miss_err be c client catalog region _ _ h1 h2 hl
      (loadUserProjects_listErr be c client region e hbe)]
    exact hkv
  | extractErr e =>
    rw [nsc_miss_err be c client catalog region _ _ h1 h2 hl
      (loadUserProjects_extractErr be c client region e hbe)]
    exact hkv
  | ok ps =>
    cases hq : ps.isEmpty with
    | true =>
      have hps : ps = [] := by
        cases ps with
        | nil => rfl
        | cons p rest => simp at hq
      subst hps
      rw [nsc_miss_err be c client catalog region _ _ h1 h2 hl
        (loadUserProjects_empty be c client region hbe)]
      exact hkv
    | false =>
      rw [nsc_miss_ok be c client catalog region _ h1 h2 hl
        (loadUserProjects_store be c client region ps hbe hq)]
      have hfil : ∀ p ∈ ps, p.name ≠ k := by
        intro p hp h0
        exact hkne ((hfb client.domainID region ps hbe p hp ▸ h0 : region = k)).symm
      calc List.lookup k (storeProjects c.regionProjectIDMap ps)
          = List.lookup k c.regionProjectIDMap :=
            lookup_storeProjects_ne ps c.regionProjectIDMap k hfil
        _ = some v := hkv

/-- C8: `RegionProjectIDMap` grows monotonically — across any sequence of
service-client constructions (the only operations that touch the map) against
a name-filter-honouring identity backend, every binding present in the map
stays present with the same project-ID value: entries are never removed and
never overwritten. -/
theorem regionProjectIDMap_monotone (be : IdentityBackend)
    (client : ProviderClient) (hfb : FilteredBackend be) :
    ∀ (reqs : List (ServiceCatalog × String)) (c : Config) (k v : String),
      List.lookup k c.regionProjectIDMap = some v →
      List.lookup k (runRequests be client reqs c).regionProjectIDMap = some v := by
  intro reqs
  induction reqs with
  | nil => intro c k v hkv; exact hkv
  | cons req rest ih =>
    intro c k v hkv
    exact ih ((newServiceClientByName be c client req.1 req.2).1) k v
      (nsc_fst_preserves_bindings be c client req.1 req.2 k v hfb hkv)

/-- C8 witness: a cached binding survives a concrete request sequence that
resolves a second region through the backend. -/
theorem regionProjectIDMap_monotone_witness :
    List.lookup "r" (runRequests beW5 {}
      [(catW4, "r2"), (catW4, "r")]
      { cW4 with accessKey := "a", secretKey := "s" }).regionProjectIDMap = some "p" :=
  regionProjectIDMap_monotone beW5 {}
    (by
      intro d r ps h p hp
      have hps : ps = [{ name := r, id := "pid" }] :=
        (ProjectsResult.ok.inj h).symm
      subst hps
      simp at hp
      subst hp
      rfl)
    [(catW4, "r2"), (catW4, "r")] { cW4 with accessKey := "a", secretKey := "s" }
    "r" "p" (by decide)

/-! Section: C10 -/

theorem seedRegionMap_hwClient (c1 : Config) :
    (seedRegionMap c1).hwClient = c1.hwClient := by
  rcases hhw : c1.hwClient with _ | hw
  · simp [seedRegionMap, hhw]
  · by_cases hp : hw.projectID = ""
    · simp [seedRegionMap, hhw, hp]
    · simp [seedRegionMap, hhw, hp]

theorem configureProvider_ok_elim (be : AuthBackend) (s3be : S3Backend)
    (c0 c' : Config) (h : configureProvider be s3be c0 = Except.ok c') :
    ∃ c1, loadAndValidate be s3be (initConfig c0) = (c1, none) ∧
      c' = seedRegionMap c1 := by
  unfold configureProvider at h
  rcases hlv : loadAndValidate be s3be (initConfig c0) with ⟨c1, e?⟩
  rw [hlv] at h
  cases e? with
  | some e => exact Except.noConfusion h
  | none => exact ⟨c1, rfl, (Except.ok.inj h).symm⟩

/-- C10 (implicit): after a successful provider configuration whose
project-scoped client carries a non-empty project ID, the default region is
pre-seeded into `RegionProjectIDMap` (default region ↦ `HwClient.ProjectID`),
so the very first service-client construction for the default region is a
cache hit: it returns the configuration unchanged (in particular it issues no
identity project-listing query) and succeeds. -/
theorem configureProvider_seeds_default_region (be : AuthBackend)
    (s3be : S3Backend) (c0 c' : Config) (hw : ProviderClient)
    (h : configureProvider be s3be c0 = Except.ok c')
    (hhw : c'.hwClient = some hw) (hpid : hw.projectID ≠ "") :
    List.lookup c'.region c'.regionProjectIDMap = some hw.projectID ∧
    (∀ (ibe : IdentityBackend) (client : ProviderClient)
        (catalog : ServiceCatalog),
      catalog.name ≠ "" → catalog.version ≠ "" →
      (newServiceClientByName ibe c' client catalog c'.region).1 = c' ∧
      isOk (newServiceClientByName ibe c' client catalog c'.region).2 = true) := by
  obtain ⟨c1, hlv, hc'⟩ := configureProvider_ok_elim be s3be c0 c' h
  subst hc'
  have hhw1 : c1.hwClient = some hw := by
    rw [← seedRegionMap_hwClient c1]
    exact hhw
  have h3 : List.lookup (seedRegionMap c1).region
      (seedRegionMap c1).regionProjectIDMap = some hw.projectID := by
    simp only [seedRegionMap, hhw1]
    rw [if_pos hpid]
    exact lookup_mapPut_self c1.regionProjectIDMap c1.region hw.projectID
  refine ⟨h3, ?_⟩
  intro ibe client catalog hn hv
  have h1 : ¬(catalog.name = "" ∨ catalog.version = "") :=
    fun hor => hor.elim hn hv
  have h2 : ¬((seedRegionMap c1).region ≠ (seedRegionMap c1).region ∧
      ((seedRegionMap c1).accessKey = "" ∨ (seedRegionMap c1).secretKey = "")) :=
    fun hand => hand.1 rfl
  have hsome : (List.lookup (seedRegionMap c1).region
      (seedRegionMap c1).regionProjectIDMap).isSome = true := by
    rw [h3]
    rfl
  rw [nsc_hit ibe (seedRegionMap c1) client catalog (seedRegionMap c1).region
    h1 h2 hsome]
  exact ⟨rfl, rfl⟩

/-- Initial provider options for the C10 witness. -/
def cW10 : Config := { token := "t", region := "r" }

/-- Auth backend for the C10 witness: every authentication yields a client
whose project ID is `"pid0"`. -/
def beW10 : AuthBackend := fun _ => Except.ok { projectID := "pid0" }

/-- The configuration `configureProvider` produces from `cW10`/`beW10`. -/
def cW10' : Config :=
  { token := "t", region := "r", tenantName := "r", delegatedProject := "r",
    hwClient := some { projectID := "pid0" },
    domainClient := some { projectID := "pid0" },
    attempted := [AuthStrategy.token],
    regionProjectIDMap := [("r", "pid0")] }

/-- C10 witness: the seeding theorem at a concrete token-auth configuration. -/
theorem configureProvider_seeds_default_region_witness :
    configureProvider beW10 none cW10 = Except.ok cW10' ∧
    List.lookup cW10'.region cW10'.regionProjectIDMap = some "pid0" ∧
    (newServiceClientByName ibeEmpty cW10' {} catW4 cW10'.region).1 = cW10' :=
  ⟨by decide,
   (configureProvider_seeds_default_region beW10 none cW10 cW10'
      { projectID := "pid0" } (by decide) (by decide) (by decide)).1,
   ((configureProvider_seeds_default_region beW10 none cW10 cW10'
      { projectID := "pid0" } (by decide) (by decide) (by decide)).2
      ibeEmpty {} catW4 (by decide) (by decide)).1⟩

end HuaweiCloud
